import Mathlib

/-!
Verification of the Tailwind build configuration in `src/tailwind.config.js`.

The source file is a single static data record exported via `module.exports`.
We embed it shallowly: the record becomes a Lean structure whose fields hold
the literal data of the source, mappings are association lists (preserving
the key order of the source text), and the hex-color pattern of the spec is
a decidable predicate on strings.
-/

/-- A character is a hexadecimal digit (either case), as in the pattern
`[0-9A-Fa-f]`. -/
def isHexDigitChar (c : Char) : Bool :=
  ('0' ≤ c && c ≤ '9') || ('A' ≤ c && c ≤ 'F') || ('a' ≤ c && c ≤ 'f')

/-- A character is a lowercase hexadecimal digit, pattern `[0-9a-f]`. -/
def isLowerHexDigitChar (c : Char) : Bool :=
  ('0' ≤ c && c ≤ '9') || ('a' ≤ c && c ≤ 'f')

/-- The string matches the hex-color pattern `#[0-9A-Fa-f]\x7b6\x7d`:
a `#` followed by exactly six hex digits. -/
def isHexColor (s : String) : Bool :=
  match s.toList with
  | '#' :: rest => rest.length == 6 && rest.all isHexDigitChar
  | _ => false

/-- The string is a lowercase six-digit hex color literal:
`#` followed by exactly six characters from `[0-9a-f]`. -/
def isLowerHexColor (s : String) : Bool :=
  match s.toList with
  | '#' :: rest => rest.length == 6 && rest.all isLowerHexDigitChar
  | _ => false

/-- The `BuildConfiguration` record of the spec: the shape of the object
exported by `src/tailwind.config.js`. Mappings are association lists in
source order. -/
structure BuildConfiguration where
  contentGlobs : List String
  fontFamily : List (String × List String)
  colors : List (String × String)
  plugins : List String
deriving DecidableEq, Repr

/-- The configuration record literally transcribed from
`src/tailwind.config.js` (the object assigned to `module.exports`). -/
def tailwindConfig : BuildConfiguration :=
  { contentGlobs := ["./frontend/**/*.\x7bhtml,js\x7d"]
    fontFamily :=
      [ ("arcade", ["\"Press Start 2P\"", "cursive"])
      , ("mono", ["\"JetBrains Mono\"", "monospace"]) ]
    colors :=
      [ ("void", "#09090b")
      , ("void-light", "#18181b")
      , ("neon-cyan", "#00f3ff")
      , ("neon-pink", "#ff00ff")
      , ("neon-green", "#39ff14")
      , ("grid-line", "#27272a") ]
    plugins := [] }

/-- A generic configuration value tree: strings, ordered sequences, and
string-keyed mappings. This is the serialized form of a configuration. -/
inductive ConfigValue where
  | str : String → ConfigValue
  | seq : List ConfigValue → ConfigValue
  | map : List (String × ConfigValue) → ConfigValue

/-- Modelled from the spec: the repository contains no serializer (the
config is consumed by an external build tool), so serialization is modelled
as producing the value tree with the exact field layout of the source file:
`content`, `theme.extend.fontFamily`, `theme.extend.colors`, `plugins`. -/
def serialize (c : BuildConfiguration) : ConfigValue :=
  ConfigValue.map
    [ ("content", ConfigValue.seq (c.contentGlobs.map ConfigValue.str))
    , ("theme", ConfigValue.map
        [ ("extend", ConfigValue.map
            [ ("fontFamily", ConfigValue.map
                (c.fontFamily.map fun p =>
                  (p.1, ConfigValue.seq (p.2.map ConfigValue.str))))
            , ("colors", ConfigValue.map
                (c.colors.map fun p => (p.1, ConfigValue.str p.2))) ]) ])
    , ("plugins", ConfigValue.seq (c.plugins.map ConfigValue.str)) ]

/-- Decode a value expected to be a string. -/
def decodeStr : ConfigValue → Option String
  | ConfigValue.str s => some s
  | _ => none

/-- Decode a value expected to be a sequence of strings. -/
def decodeStrList : ConfigValue → Option (List String)
  | ConfigValue.seq vs => vs.mapM decodeStr
  | _ => none

/-- Decode a value expected to be a mapping from strings to sequences of
strings. -/
def decodeFontFamily : ConfigValue → Option (List (String × List String))
  | ConfigValue.map kvs =>
      kvs.mapM fun p => (decodeStrList p.2).map fun l => (p.1, l)
  | _ => none

/-- Decode a value expected to be a mapping from strings to strings. -/
def decodeColors : ConfigValue → Option (List (String × String))
  | ConfigValue.map kvs =>
      kvs.mapM fun p => (decodeStr p.2).map fun s => (p.1, s)
  | _ => none

/-- Modelled from the spec: the repository contains no parser (the config
is consumed by an external build tool), so parsing is modelled as decoding
the value tree back into a `BuildConfiguration`, requiring exactly the
field layout produced by `serialize`. -/
def parse : ConfigValue → Option BuildConfiguration
  | ConfigValue.map
      [ ("content", contentV)
      , ("theme", ConfigValue.map
          [ ("extend", ConfigValue.map
              [ ("fontFamily", ffV), ("colors", colV) ]) ])
      , ("plugins", plugV) ] => do
      let globs ← decodeStrList contentV
      let ff ← decodeFontFamily ffV
      let cols ← decodeColors colV
      let plugs ← decodeStrList plugV
      pure { contentGlobs := globs, fontFamily := ff
             colors := cols, plugins := plugs }
  | _ => none

/-- Claim C1: every value in the `colors` mapping of the configuration
matches the hex-color pattern `#[0-9A-Fa-f]\x7b6\x7d`. -/
theorem colors_all_hex :
    tailwindConfig.colors.all (fun p => isHexColor p.2) = true := by decide

/-- Claim C2: looking up the font alias `arcade` in the `fontFamily`
mapping yields exactly the two-element sequence whose primary entry is
the string `"Press Start 2P"` (with its literal quotes) and whose sole
fallback is `cursive`. -/
theorem fontFamily_arcade_lookup :
    tailwindConfig.fontFamily.lookup "arcade"
      = some ["\"Press Start 2P\"", "cursive"] := by decide

/-- Claim C3: looking up the color alias `void` in the `colors` mapping
returns exactly the string `#09090b`. -/
theorem colors_void_lookup :
    tailwindConfig.colors.lookup "void" = some "#09090b" := by decide

/-- Claim C4: the configuration's `contentGlobs` sequence is non-empty. -/
theorem contentGlobs_nonempty :
    tailwindConfig.contentGlobs ≠ [] := by decide

/-- Claim C5: every value in the `fontFamily` mapping is a non-empty
sequence of strings. -/
theorem fontFamily_values_nonempty :
    tailwindConfig.fontFamily.all (fun p => !p.2.isEmpty) = true := by decide

/-- Claim C6: the `plugins` field of the configuration is the empty
sequence. -/
theorem plugins_empty : tailwindConfig.plugins = [] := by decide

/-- Claim C7: the keys of the `fontFamily` mapping are pairwise distinct,
and the keys of the `colors` mapping are pairwise distinct. -/
theorem keys_nodup :
    (tailwindConfig.fontFamily.map Prod.fst).Nodup ∧
      (tailwindConfig.colors.map Prod.fst).Nodup := by decide

/-- Claim C8: serializing the parsed configuration record and re-parsing
the result yields the identical record. -/
theorem serialize_parse_roundtrip :
    parse (serialize tailwindConfig) = some tailwindConfig := by decide

/-- Claim C9: the `contentGlobs` sequence contains exactly one entry, the
glob `./frontend/**/*.\x7bhtml,js\x7d`. -/
theorem contentGlobs_exact :
    tailwindConfig.contentGlobs = ["./frontend/**/*.\x7bhtml,js\x7d"] := by
  decide

/-- Claim C10: the `fontFamily` mapping has precisely the keys `arcade`
and `mono`, with `mono` mapped to the two-element sequence
`["JetBrains Mono" (with literal quotes), monospace]`; the `colors`
mapping has precisely the six keys `void`, `void-light`, `neon-cyan`,
`neon-pink`, `neon-green`, `grid-line`, and every color value is a
lowercase six-digit hex literal. -/
theorem theme_extend_exact :
    tailwindConfig.fontFamily.map Prod.fst = ["arcade", "mono"] ∧
      tailwindConfig.fontFamily.lookup "mono"
        = some ["\"JetBrains Mono\"", "monospace"] ∧
      tailwindConfig.colors.map Prod.fst
        = ["void", "void-light", "neon-cyan", "neon-pink", "neon-green",
           "grid-line"] ∧
      tailwindConfig.colors.all (fun p => isLowerHexColor p.2) = true := by
  decide
